import Mathlib

/-!
Verification of the face/phone security-pipeline server.

Shallow embedding of the control-plane logic of the repository:
decision fusing (`ActionDecisionManager`), pipeline-worker branch
handlers (`PipeLine`), round-robin dispatch (`PipeLinesManager`),
rate limiting (`RateLimiter`), reference-embedding lookup
(`FaceDetectionRecognition`), and the gateway's per-frame admission
step (`Server.handle_connection`).

Python dictionaries holding optional fields are modelled with `Option`;
Python truthiness of an optional boolean field is `truthy`.  Machine
times are wall-clock milliseconds, modelled as `Int` (Python ints are
unbounded).  Association lists model Python dicts whose iteration order
is insertion order.
-/

namespace FaceServer

/-- Action codes from `utilities/Datatypes.py` (`Action` enum). -/
def NO_ACTION : Nat := 0

def ACTION_LOCK_SCREEN : Nat := 1

def ACTION_SIGN_OUT : Nat := 2

def ACTION_WARNING : Nat := 3

def ACTION_ERROR : Nat := 4

/-- Reason codes from `utilities/Datatypes.py` (`Reason` enum). -/
def EMPTY_REASON : Nat := 0

def REASON_PHONE_DETECTION : Nat := 1

def REASON_SPOOF_IMAGE : Nat := 5

def REASON_WRONG_USER : Nat := 6

def REASON_NO_FACE : Nat := 7

def REASON_BLOCKED_CLIENT : Nat := 8

def REASON_PAUSED_CLIENT : Nat := 9

def REASON_CLIENT_NOT_AVAILABLE : Nat := 11

def REASON_RATE_LIMIT_EXCEEDED : Nat := 12

/-- Python truthiness of an optional boolean dict entry:
`None` and `False` are falsy, only `True` is truthy. -/
def truthy : Option Bool → Bool
  | some b => b
  | none => false

/-- Face-branch verdict payload as consumed by
`ActionDecisionManager.__face_decide_action` (the fields it reads). -/
structure FaceVerdict where
  client_name : String
  send_time : String
  face_bbox : Option (Int × Int × Int × Int)
  check_spoof : Option Bool
  check_client : Option Bool
deriving DecidableEq

/-- Phone-branch verdict payload as consumed by
`ActionDecisionManager.__phone_decide_action`. -/
structure PhoneVerdict where
  client_name : String
  send_time : String
  phone_bbox : Option (Int × Int × Int × Int)
deriving DecidableEq

/-- `ActionDecisionManager.__face_decide_action`: derive the (action, reason)
pair from a face verdict.  Mirrors the source's early returns:
no bbox, then spoof, then failed identity check, then default. -/
def faceDecideActionCore (v : FaceVerdict) : Nat × Nat :=
  match v.face_bbox with
  | none => (ACTION_LOCK_SCREEN, REASON_NO_FACE)
  | some _ =>
    if truthy v.check_spoof then (ACTION_SIGN_OUT, REASON_SPOOF_IMAGE)
    else if ¬ truthy v.check_client then (ACTION_LOCK_SCREEN, REASON_WRONG_USER)
    else (NO_ACTION, EMPTY_REASON)

/-- `ActionDecisionManager.__phone_decide_action`: derive the (action, reason)
pair from a phone verdict. -/
def phoneDecideActionCore (v : PhoneVerdict) : Nat × Nat :=
  match v.phone_bbox with
  | some _ => (ACTION_SIGN_OUT, REASON_PHONE_DETECTION)
  | none => (NO_ACTION, EMPTY_REASON)

/-- Lightweight action message placed on the `actions` queue. -/
structure ActionMsg where
  action : Nat
  reason : Nat
  client_name : String
  send_time : String
  finish_time : String
deriving DecidableEq

/-- `ActionDecisionManager.face_decide_action`: enrich with client name,
send time and wall-clock finish time; always returns a message. -/
def faceDecideAction (v : FaceVerdict) (finish : String) : ActionMsg :=
  { action := (faceDecideActionCore v).1
    reason := (faceDecideActionCore v).2
    client_name := v.client_name
    send_time := v.send_time
    finish_time := finish }

/-- `ActionDecisionManager.phone_decide_action`: returns the enriched message
only when the derived action is not `NO_ACTION` (the `(found, msg)` pair in
the source, `none` standing for `(False, None)`). -/
def phoneDecideAction (v : PhoneVerdict) (finish : String) : Option ActionMsg :=
  let ar := phoneDecideActionCore v
  if ar.1 ≠ NO_ACTION then
    some { action := ar.1, reason := ar.2, client_name := v.client_name,
           send_time := v.send_time, finish_time := finish }
  else none

/-- A publish performed by the decision fuser: either a lightweight action on
the `actions` queue or an enriched record on the `saved_actions` queue. -/
inductive FuserPublish where
  | toActions (m : ActionMsg)
  | toSavedActions (action reason : Nat) (user : String)
deriving DecidableEq

/-- Publishes of `ActionDecisionManager_Process.setup_consumers`'s face
consumer on the success path: the action message always goes to `actions`;
a saved action follows exactly when the action differs from the default
`NO_ACTION`. -/
def processFaceResult (v : FaceVerdict) (finish : String) : List FuserPublish :=
  let m := faceDecideAction v finish
  FuserPublish.toActions m ::
    (if m.action ≠ NO_ACTION then
        [FuserPublish.toSavedActions m.action m.reason v.client_name]
      else [])

/-- Publishes of the phone consumer on the success path: nothing when
`phone_decide_action` reports no action, otherwise the action message and a
saved action. -/
def processPhoneResult (v : PhoneVerdict) (finish : String) : List FuserPublish :=
  match phoneDecideAction v finish with
  | some m => [FuserPublish.toActions m,
               FuserPublish.toSavedActions m.action m.reason v.client_name]
  | none => []

/-- C1: for every face branch verdict, the face derivation returns exactly
`LOCK_SCREEN/NO_FACE` when `face_bbox` is absent; otherwise
`SIGN_OUT/SPOOF_IMAGE` when `check_spoof` is true; otherwise
`LOCK_SCREEN/WRONG_USER` when `check_client` is false; otherwise
`NO_ACTION/EMPTY_REASON`, the three conditions tested in that priority
order (verdicts carrying a detected face always carry boolean
`check_spoof`/`check_client` fields, the hypothesis `h`). -/
theorem C1_face_decision_priority (v : FaceVerdict) (spoof client : Bool)
    (h : v.face_bbox.isSome →
      v.check_spoof = some spoof ∧ v.check_client = some client) :
    faceDecideActionCore v =
      if v.face_bbox = none then (ACTION_LOCK_SCREEN, REASON_NO_FACE)
      else if spoof = true then (ACTION_SIGN_OUT, REASON_SPOOF_IMAGE)
      else if client = false then (ACTION_LOCK_SCREEN, REASON_WRONG_USER)
      else (NO_ACTION, EMPTY_REASON) := by
  cases hb : v.face_bbox with
  | none => simp [faceDecideActionCore, hb]
  | some bb =>
    have hdef := h (by simp [hb])
    cases spoof <;> cases client <;>
      simp [faceDecideActionCore, hb, hdef.1, hdef.2, truthy]

/-- C1 witness: a genuine-user verdict (face present, not spoof, identity
verified) derives `NO_ACTION/EMPTY_REASON`. -/
theorem C1_face_decision_priority_witness :
    faceDecideActionCore
        { client_name := "obama", send_time := "10-00-00",
          face_bbox := some (0, 0, 10, 10), check_spoof := some false,
          check_client := some true } = (NO_ACTION, EMPTY_REASON) := by
  have h := C1_face_decision_priority
    { client_name := "obama", send_time := "10-00-00",
      face_bbox := some (0, 0, 10, 10), check_spoof := some false,
      check_client := some true } false true (by intro _; exact ⟨rfl, rfl⟩)
  simpa using h

/-- C2: for every consumed branch verdict the fuser's emission policy is:
the face consumer always publishes the derived action to `actions` (even
`NO_ACTION`); the phone derivation yields `SIGN_OUT/PHONE_DETECTION`
exactly when `phone_bbox` is present and `NO_ACTION/EMPTY_REASON`
otherwise; and the phone consumer publishes to `actions` iff the derived
action is not `NO_ACTION`. -/
theorem C2_fuser_emission_policy (v : FaceVerdict) (w : PhoneVerdict)
    (finish : String) :
    FuserPublish.toActions (faceDecideAction v finish) ∈
        processFaceResult v finish
    ∧ phoneDecideActionCore w =
        (if w.phone_bbox.isSome then (ACTION_SIGN_OUT, REASON_PHONE_DETECTION)
          else (NO_ACTION, EMPTY_REASON))
    ∧ ((∃ m, FuserPublish.toActions m ∈ processPhoneResult w finish) ↔
        (phoneDecideActionCore w).1 ≠ NO_ACTION) := by
  refine ⟨by simp [processFaceResult], ?_, ?_⟩
  · cases h : w.phone_bbox <;> simp [phoneDecideActionCore, h]
  · cases h : w.phone_bbox <;>
      simp [processPhoneResult, phoneDecideAction, phoneDecideActionCore, h,
        ACTION_SIGN_OUT, NO_ACTION]

/-! ## Pipeline-worker branch handlers (`PipeLine.setup_consumers`) -/

/-- Frame envelope fields a worker branch reads before publishing. -/
structure WorkerEnvelope where
  client_name : String
  send_time : String
  image_object_key : Option String
deriving DecidableEq

/-- Payload a worker branch publishes on its results queue: the envelope
merged with the branch result.  The source never writes a
`processing_error` key, so the field is `none` on every message built
by `mkFaceResultMsg`/`mkPhoneResultMsg`. -/
structure WorkerResultMsg where
  queue : String
  client_name : String
  send_time : String
  processing_error : Option String
deriving DecidableEq

/-- Success-path message of `recognition_anti_spoof_pipeline`
(published to `face_pipeline_results`). -/
def mkFaceResultMsg (p : WorkerEnvelope) : WorkerResultMsg :=
  { queue := "face_pipeline_results", client_name := p.client_name,
    send_time := p.send_time, processing_error := none }

/-- Success-path message of `phone_detection_pipeline`
(published to `phone_pipeline_results`). -/
def mkPhoneResultMsg (p : WorkerEnvelope) : WorkerResultMsg :=
  { queue := "phone_pipeline_results", client_name := p.client_name,
    send_time := p.send_time, processing_error := none }

/-- `recognition_anti_spoof_pipeline` handler: `exc` is `some e` when the
try-body (hydration, model run, or publish preparation) raises `e`.  On
success the merged payload is published; on exception the handler only
logs, publishes nothing, and sets the worker's `__STOP` flag.  Returns
(published messages, stop flag after the handler). -/
def faceBranchHandler (p : WorkerEnvelope) (exc : Option String)
    (stop : Bool) : List WorkerResultMsg × Bool :=
  match exc with
  | none => ([mkFaceResultMsg p], stop)
  | some _ => ([], true)

/-- `phone_detection_pipeline` handler: on success publishes the merged
payload; on exception only logs and publishes nothing. -/
def phoneBranchHandler (p : WorkerEnvelope) (exc : Option String) :
    List WorkerResultMsg :=
  match exc with
  | none => [mkPhoneResultMsg p]
  | some _ => []

/-- C3 counterexample: on a concrete envelope whose handler raises, neither
branch publishes any message at all — in particular no failure verdict
carrying a `processing_error` field reaches the results queue, contrary
to the claim. -/
theorem C3_no_failure_verdict_counterexample :
    (faceBranchHandler
        { client_name := "obama", send_time := "10-00-00",
          image_object_key := some "frames/obama/1.jpg" }
        (some "model failure") false).1 = []
    ∧ (phoneBranchHandler
        { client_name := "obama", send_time := "10-00-00",
          image_object_key := some "frames/obama/1.jpg" }
        (some "model failure")) = []
    ∧ ¬ ∃ m ∈ (faceBranchHandler
        { client_name := "obama", send_time := "10-00-00",
          image_object_key := some "frames/obama/1.jpg" }
        (some "model failure") false).1, m.processing_error.isSome := by
  refine ⟨rfl, rfl, ?_⟩
  simp [faceBranchHandler]

/-- C3 amended: when a branch handler raises during processing, it logs the
error and publishes nothing to its results queue (no failure verdict, no
`processing_error` field); the face branch additionally sets the worker's
stop flag. -/
theorem C3_exception_publishes_nothing (p : WorkerEnvelope) (e : String)
    (stop : Bool) :
    faceBranchHandler p (some e) stop = ([], true)
    ∧ phoneBranchHandler p (some e) = [] := by
  exact ⟨rfl, rfl⟩

/-! ## RateLimiter (`RateLimiter_service/src/RateLimiter.py`) -/

/-- Association-list lookup, modelling `dict.get`. -/
def alget {α : Type} : List (String × α) → String → Option α
  | [], _ => none
  | e :: es, k => if e.1 = k then some e.2 else alget es k

/-- Association-list update, modelling `dict[k] = v` (replace in place or
append). -/
def alset {α : Type} : List (String × α) → String → α → List (String × α)
  | [], k, v => [(k, v)]
  | e :: es, k, v => if e.1 = k then (k, v) :: es else e :: alset es k v

/-- Millisecond-keyed per-client map (`SynchronizedDict`). -/
abbrev MDict := List (String × Int)

/-- RateLimiter state: capacity, window size (ms), the three per-client
maps, and the `_cleanup_stop` event flag set by `shutdown`. -/
structure RateLimiter where
  max_clients : Int
  window_size : Int
  client_counts : MDict
  client_window_start : MDict
  client_last_seen : MDict
  cleanup_stop : Bool
deriving DecidableEq

/-- `RateLimiter._is_client_active`: no `window_start` entry means
inactive; otherwise active iff `t - max(window_start, last_seen) < W`,
`last_seen` defaulting to `window_start`. -/
def isClientActive (st : RateLimiter) (cid : String) (t : Int) : Bool :=
  match alget st.client_window_start cid with
  | none => false
  | some ws =>
    let ls := (alget st.client_last_seen cid).getD ws
    decide (t - max ws ls < st.window_size)

/-- The `active_clients` count in `allowRequest`: ids in
`client_counts` whose window is still active at `t`. -/
def activeClients (st : RateLimiter) (t : Int) : Nat :=
  (st.client_counts.map Prod.fst).countP (fun cid => isClientActive st cid t)

/-- `RateLimiter.allowRequest` at wall-clock time `t` (ms): deny iff the
client is not active and capacity is reached; otherwise reset the window
if not active, stamp `last_seen`, bump the count, and allow. -/
def allowRequest (st : RateLimiter) (cid : String) (t : Int) :
    Bool × RateLimiter :=
  let clientIsActive := isClientActive st cid t
  let active := activeClients st t
  if clientIsActive = false ∧ st.max_clients ≤ (active : Int) then (false, st)
  else
    let currentCount := (alget st.client_counts cid).getD 0
    let ws0 := alget st.client_window_start cid
    let wsCnt : Int × Int :=
      match ws0 with
      | none => (t, 0)
      | some w => if clientIsActive then (w, currentCount) else (t, 0)
    (true,
      { st with
        client_counts := alset st.client_counts cid (wsCnt.2 + 1),
        client_window_start := alset st.client_window_start cid wsCnt.1,
        client_last_seen := alset st.client_last_seen cid t })

/-- `RateLimiter.shutdown`: sets the `_cleanup_stop` event (and stops the
sweep executor; the sweep itself is not modelled). -/
def RateLimiter.shutdown (st : RateLimiter) : RateLimiter :=
  { st with cleanup_stop := true }

theorem alget_alset_self {α : Type} (m : List (String × α)) (k : String)
    (v : α) : alget (alset m k v) k = some v := by
  induction m with
  | nil => simp [alget, alset]
  | cons e es ih =>
    by_cases h : e.1 = k
    · simp [alget, alset, h]
    · simp [alget, alset, h, ih]

/-- C4: `Allow(client_id)` at time `t` denies exactly when the client is
not active (no `window_start` entry, or `t - max(window_start, last_seen)
≥ W`) and the active-client count is at capacity; otherwise it resets
`(count=0, window_start=t)` if the client was not active, stamps
`last_seen = t`, increments the count, and allows.  At exactly
`MaxClients` active ids, a new (inactive) id is denied and an
already-active id is admitted regardless of its request count. -/
theorem C4_rate_limiter_allow_spec (st : RateLimiter) (cid : String)
    (t : Int) :
    (isClientActive st cid t = false ↔
      (alget st.client_window_start cid = none ∨
        ∃ w, alget st.client_window_start cid = some w ∧
          st.window_size ≤ t - max w ((alget st.client_last_seen cid).getD w)))
    ∧ ((allowRequest st cid t).1 = false ↔
        (isClientActive st cid t = false ∧
          st.max_clients ≤ (activeClients st t : Int)))
    ∧ ((allowRequest st cid t).1 = true →
        (alget (allowRequest st cid t).2.client_last_seen cid = some t
        ∧ (isClientActive st cid t = false →
            alget (allowRequest st cid t).2.client_window_start cid = some t
            ∧ alget (allowRequest st cid t).2.client_counts cid = some 1)
        ∧ (isClientActive st cid t = true →
            alget (allowRequest st cid t).2.client_window_start cid
              = alget st.client_window_start cid
            ∧ alget (allowRequest st cid t).2.client_counts cid
              = some ((alget st.client_counts cid).getD 0 + 1))))
    ∧ ((activeClients st t : Int) = st.max_clients →
        ((isClientActive st cid t = false → (allowRequest st cid t).1 = false)
        ∧ (isClientActive st cid t = true →
            (allowRequest st cid t).1 = true))) := by
  refine ⟨?_, ?_, ?_, ?_⟩
  · cases h : alget st.client_window_start cid with
    | none => simp [isClientActive, h]
    | some w => simp [isClientActive, h, not_lt]
  · by_cases hc : isClientActive st cid t = false ∧
        st.max_clients ≤ (activeClients st t : Int)
    · simp [allowRequest, hc]
    · simp only [allowRequest]
      rw [if_neg hc]
      simpa using hc
  · intro h1
    have hc : ¬ (isClientActive st cid t = false ∧
        st.max_clients ≤ (activeClients st t : Int)) := by
      intro hcc
      simp [allowRequest, hcc] at h1
    cases hia : isClientActive st cid t with
    | false =>
      have hle : ¬ st.max_clients ≤ (activeClients st t : Int) :=
        fun hl => hc ⟨hia, hl⟩
      cases hw : alget st.client_window_start cid <;>
        simp [allowRequest, hia, hw, hle, alget_alset_self]
    | true =>
      cases hw : alget st.client_window_start cid with
      | none => simp [isClientActive, hw] at hia
      | some w => simp [allowRequest, hia, hw, alget_alset_self]
  · intro hb
    constructor
    · intro hia
      simp [allowRequest, hia, hb.ge]
    · intro hia
      simp [allowRequest, hia]

/-- A limiter at capacity: one client (`a`) active in the current window
with `max_clients = 1`. -/
def rlAtCapacity : RateLimiter :=
  { max_clients := 1, window_size := 100,
    client_counts := [("a", 1)], client_window_start := [("a", 0)],
    client_last_seen := [("a", 0)], cleanup_stop := false }

/-- C4 witness: at exactly `MaxClients` active ids, the new id `b` is
denied and the already-active id `a` is admitted. -/
theorem C4_rate_limiter_allow_spec_witness :
    (allowRequest rlAtCapacity "b" 50).1 = false
    ∧ (allowRequest rlAtCapacity "a" 50).1 = true := by
  refine ⟨((C4_rate_limiter_allow_spec rlAtCapacity "b" 50).2.2.2
      (by decide)).1 (by decide),
    ((C4_rate_limiter_allow_spec rlAtCapacity "a" 50).2.2.2
      (by decide)).2 (by decide)⟩

/-- A freshly constructed, empty limiter with capacity 1. -/
def rlFresh : RateLimiter :=
  { max_clients := 1, window_size := 100, client_counts := [],
    client_window_start := [], client_last_seen := [],
    cleanup_stop := false }

/-- C9 counterexample: after `shutdown` has set the stop flag, a
subsequent `Allow` still returns allow (here: the first request of a new
client under capacity), contradicting the claim that every subsequent
`Allow` returns deny. -/
theorem C9_shutdown_allow_counterexample :
    (RateLimiter.shutdown rlFresh).cleanup_stop = true
    ∧ (allowRequest (RateLimiter.shutdown rlFresh) "a" 0).1 = true := by
  decide

/-- C9 amended: `shutdown` only sets the stop flag observed by the cleanup
sweep; `allowRequest` never consults that flag, so after shutdown every
`Allow` call returns exactly what it would have returned before shutdown
(it may still allow). -/
theorem C9_shutdown_ignored_by_allow (st : RateLimiter) (cid : String)
    (t : Int) :
    (RateLimiter.shutdown st).cleanup_stop = true
    ∧ (allowRequest (RateLimiter.shutdown st) cid t).1
        = (allowRequest st cid t).1
    ∧ (allowRequest (RateLimiter.shutdown st) cid t).2
        = RateLimiter.shutdown (allowRequest st cid t).2 := by
  have h1 : ∀ b : Bool, isClientActive { st with cleanup_stop := b } cid t
      = isClientActive st cid t := fun _ => rfl
  have h2 : ∀ b : Bool, activeClients { st with cleanup_stop := b } t
      = activeClients st t := fun _ => rfl
  refine ⟨rfl, ?_, ?_⟩ <;>
  · simp only [allowRequest, RateLimiter.shutdown, h1, h2]
    by_cases hc : isClientActive st cid t = false ∧
        st.max_clients ≤ (activeClients st t : Int)
    · rw [if_pos hc, if_pos hc]
    · rw [if_neg hc, if_neg hc]

/-! ## Dispatcher (`PipeLinesManager`) and per-pipeline fan-out -/

/-- Frame envelope as consumed by the dispatcher from `clients_data`. -/
structure Envelope where
  client_name : Option String
  user_name : Option String
  image_object_key : Option String
deriving DecidableEq

/-- Python `a or b` over optional strings: a truthy (present, non-empty)
left operand wins, otherwise the right operand. -/
def orName : Option String → Option String → Option String
  | some s, b => if s = "" then b else some s
  | none, b => b

/-- The identifier the dispatcher extracts:
`payload.get("client_name") or payload.get("user_name")`, `none` when the
result is falsy (the payload is then logged and dropped). -/
def pickName (e : Envelope) : Option String :=
  match orName e.client_name e.user_name with
  | some s => if s = "" then none else some s
  | none => none

/-- A payload is dispatched iff it carries a client identifier. -/
def hasIdentifier (e : Envelope) : Bool := (pickName e).isSome

/-- `PipeLinesManager.__select_pipeline`/`__push_data_to_pipeline` folded
over a message list: each valid payload is assigned the current counter
value as its pipeline id and the counter advances to `(id + 1) % n`;
invalid payloads are dropped without advancing the counter.  Returns the
assignment list and the final counter. -/
def dispatchAll (n : Nat) : Nat → List Envelope → List (Nat × Envelope) × Nat
  | ctr, [] => ([], ctr)
  | ctr, e :: es =>
    if hasIdentifier e then
      let r := dispatchAll n ((ctr + 1) % n) es
      ((ctr, e) :: r.1, r.2)
    else dispatchAll n ctr es

/-- The two branch queues of one pipeline worker.  Worker `PipeLine_<p>`
binds both `PipeLine_<p>_face_data` and `PipeLine_<p>_phone_data` to the
routing key `PipeLine_<p>` on the `received_clients_data` exchange
(`PipeLine.__setup_RMQ_connections`), so one publish by the dispatcher is
delivered to both queues. -/
inductive Branch where
  | face
  | phone
deriving DecidableEq

/-- Queue name of a branch queue, as created in
`PipeLine.__setup_RMQ_connections`. -/
def queueName : Branch → Nat → String
  | Branch.face, p => "PipeLine_" ++ toString p ++ "_face_data"
  | Branch.phone, p => "PipeLine_" ++ toString p ++ "_phone_data"

/-- Broker deliveries induced by the dispatcher's assignments: each publish
with routing key `PipeLine_<p>` lands once in the face queue and once in
the phone queue of pipeline `p`. -/
def deliveries (asgn : List (Nat × Envelope)) :
    List (Branch × Nat × Envelope) :=
  asgn.flatMap (fun pe => [(Branch.face, pe), (Branch.phone, pe)])

theorem dispatchAll_all_valid (n : Nat) (hn : 0 < n) :
    ∀ (envs : List Envelope) (c : Nat), c < n →
      (∀ e ∈ envs, hasIdentifier e = true) →
      (dispatchAll n c envs).1
        = ((List.range envs.length).map (fun j => (c + j) % n)).zip envs
  | [], _, _, _ => by simp [dispatchAll]
  | e :: es, c, hc, hv => by
    have he : hasIdentifier e = true := hv e (by simp)
    have ih := dispatchAll_all_valid n hn es ((c + 1) % n)
      (Nat.mod_lt _ hn) (fun x hx => hv x (List.mem_cons_of_mem _ hx))
    simp only [dispatchAll, he, if_true]
    rw [ih, List.length_cons, List.range_succ_eq_map, List.map_cons,
      List.map_map, List.zip_cons_cons]
    have hhead : (c + 0) % n = c := by
      rw [Nat.add_zero]
      exact Nat.mod_eq_of_lt hc
    have htail :
        List.map (fun j => ((c + 1) % n + j) % n) (List.range es.length)
          = List.map ((fun j => (c + j) % n) ∘ Nat.succ)
              (List.range es.length) := by
      apply List.map_congr_left
      intro j _
      show ((c + 1) % n + j) % n = (c + Nat.succ j) % n
      rw [Nat.mod_add_mod]
      have harg : c + 1 + j = c + Nat.succ j := by omega
      rw [harg]
    rw [hhead, htail]

theorem countP_mod_range (n : Nat) :
    ∀ (k i : Nat), i < n →
      ((List.range (k * n)).map (fun j => j % n)).count i = k
  | 0, i, _ => by simp
  | k + 1, i, hi => by
    have ih := countP_mod_range n k i hi
    have hsplit : (k + 1) * n = k * n + n := by ring
    have hmapped :
        List.map (fun j => j % n) (List.map (fun j => k * n + j) (List.range n))
          = List.range n := by
      rw [List.map_map]
      have hcongr : ∀ j ∈ List.range n, ((fun j => j % n) ∘ (fun j => k * n + j)) j = id j := by
        intro j hj
        show (k * n + j) % n = j
        rw [Nat.add_comm, Nat.add_mul_mod_self_right]
        exact Nat.mod_eq_of_lt (List.mem_range.mp hj)
      rw [List.map_congr_left hcongr, List.map_id]
    rw [hsplit, List.range_add, List.map_append, List.count_append, ih, hmapped]
    have hone : (List.range n).count i = 1 :=
      List.count_eq_one_of_mem (List.nodup_range n) (List.mem_range.mpr hi)
    rw [hone]

theorem deliveries_cons (a : Nat × Envelope) (rest : List (Nat × Envelope)) :
    deliveries (a :: rest)
      = (Branch.face, a) :: (Branch.phone, a) :: deliveries rest := by
  simp [deliveries]

theorem deliveries_count_zero (asgn : List (Nat × Envelope)) (b : Branch)
    (pe : Nat × Envelope) (he : pe.2 ∉ asgn.map Prod.snd) :
    (deliveries asgn).count (b, pe) = 0 := by
  induction asgn with
  | nil => rfl
  | cons a rest ih =>
    have h1 : pe.2 ≠ a.2 := fun h => he (by simp [h])
    have h2 : pe.2 ∉ rest.map Prod.snd := fun h => he (by simp [h])
    have hne : pe ≠ a := fun h => h1 (by rw [h])
    rw [deliveries_cons]
    simp [List.count_cons, ih h2, hne]

theorem deliveries_count_mem (asgn : List (Nat × Envelope))
    (hnd : (asgn.map Prod.snd).Nodup) (pe : Nat × Envelope)
    (hmem : pe ∈ asgn) :
    (deliveries asgn).count (Branch.face, pe) = 1
    ∧ (deliveries asgn).count (Branch.phone, pe) = 1 := by
  induction asgn with
  | nil => cases hmem
  | cons a rest ih =>
    have hnd1 : a.2 ∉ rest.map Prod.snd ∧ (rest.map Prod.snd).Nodup :=
      List.nodup_cons.mp (by simpa using hnd)
    rcases List.mem_cons.mp hmem with hpe | hpe
    · subst hpe
      have hzf := deliveries_count_zero rest Branch.face pe hnd1.1
      have hzp := deliveries_count_zero rest Branch.phone pe hnd1.1
      rw [deliveries_cons]
      constructor
      · simp [List.count_cons, hzf]
      · simp [List.count_cons, hzp]
    · have hsnd : pe.2 ∈ rest.map Prod.snd := List.mem_map_of_mem Prod.snd hpe
      have hne : pe ≠ a := fun h => hnd1.1 (h ▸ hsnd)
      have hih := ih hnd1.2 hpe
      rw [deliveries_cons]
      constructor
      · simp [List.count_cons, hih.1, hne]
      · simp [List.count_cons, hih.2, hne]

/-- C5: starting from the initial counter (0), dispatching `k * n` valid
envelopes over `n` pipelines selects each pipeline id exactly `k` times,
and each envelope is delivered exactly once to the face queue and exactly
once to the phone queue of its selected pipeline. -/
theorem C5_round_robin_distribution (n k : Nat) (hn : 0 < n)
    (envs : List Envelope)
    (hvalid : ∀ e ∈ envs, hasIdentifier e = true)
    (hlen : envs.length = k * n)
    (hnd : envs.Nodup) :
    (∀ i, i < n → ((dispatchAll n 0 envs).1.map Prod.fst).count i = k)
    ∧ ∀ pe ∈ (dispatchAll n 0 envs).1,
        (deliveries (dispatchAll n 0 envs).1).count (Branch.face, pe) = 1
        ∧ (deliveries (dispatchAll n 0 envs).1).count (Branch.phone, pe)
            = 1 := by
  have hasgn := dispatchAll_all_valid n hn envs 0 hn hvalid
  have hlens :
      ((List.range envs.length).map (fun j => (0 + j) % n)).length
        = envs.length := by simp
  constructor
  · intro i hi
    rw [hasgn, List.map_fst_zip _ _ (le_of_eq hlens)]
    have := countP_mod_range n k i hi
    simpa [hlen, Nat.zero_add] using this
  · intro pe hpe
    have hndsnd : ((dispatchAll n 0 envs).1.map Prod.snd).Nodup := by
      rw [hasgn, List.map_snd_zip _ _ (le_of_eq hlens.symm)]
      exact hnd
    exact deliveries_count_mem _ hndsnd pe hpe

/-- Two distinct valid envelopes for the round-robin witness. -/
def envA : Envelope :=
  { client_name := some "alice", user_name := none,
    image_object_key := some "frames/alice/1.jpg" }

/-- Second witness envelope. -/
def envB : Envelope :=
  { client_name := none, user_name := some "bob",
    image_object_key := some "frames/bob/1.jpg" }

/-- C5 witness: with 2 pipelines and 2 valid envelopes, each pipeline is
selected once, and the first envelope reaches both queues of pipeline 0
exactly once. -/
theorem C5_round_robin_distribution_witness :
    (((dispatchAll 2 0 [envA, envB]).1.map Prod.fst).count 0 = 1
      ∧ ((dispatchAll 2 0 [envA, envB]).1.map Prod.fst).count 1 = 1)
    ∧ (deliveries (dispatchAll 2 0 [envA, envB]).1).count
        (Branch.face, 0, envA) = 1
    ∧ (deliveries (dispatchAll 2 0 [envA, envB]).1).count
        (Branch.phone, 0, envA) = 1 := by
  have h := C5_round_robin_distribution 2 1 (by decide) [envA, envB]
    (by decide) (by decide) (by decide)
  have hmem : ((0 : Nat), envA) ∈ (dispatchAll 2 0 [envA, envB]).1 := by
    decide
  exact ⟨⟨h.1 0 (by decide), h.1 1 (by decide)⟩,
    (h.2 (0, envA) hmem).1, (h.2 (0, envA) hmem).2⟩

/-! ## Gateway per-frame step (`Server.handle_connection` loop body) -/

/-- Outcome of one iteration of the gateway's per-session loop. -/
inductive StepOutcome where
  | continueLoop
  | closeThenStop (code : Nat)
  | stopSession
  | enqueued (published : Bool)
deriving DecidableEq

/-- A `websocket.send` of an `{action, reason}` JSON message. -/
structure SentMsg where
  action : Nat
  reason : Nat
deriving DecidableEq

/-- Environment of one loop iteration: the lowercased `user_name` of the
incoming frame and the oracles for each check/side-effect, in the order
the source consults them. -/
structure GatewayEnv where
  user_name : String
  paused : Bool
  blocked : Bool
  available : Bool
  hasRateLimiter : Bool
  rateAllowed : Bool
  decodeOk : Bool
  encodeOk : Bool
  storeOk : Bool
  alreadyRegistered : Bool
  hasRefImage : Bool
  publishOk : Bool

/-- One iteration of `Server.handle_connection`: empty name → skip; paused
→ warn and continue; blocked → send error and close (default code 1000);
unavailable → send error and close; rate-limit denial → send
`ERROR/RATE_LIMIT_EXCEEDED`, close with 4003; then decode/encode failures
skip the frame, a storage failure closes with 1011, a failed first
registration ends the session, and otherwise the envelope is published to
`clients_data`.  Returns the sent messages and the outcome. -/
def handleFrame (env : GatewayEnv) : List SentMsg × StepOutcome :=
  if env.user_name = "" then ([], StepOutcome.continueLoop)
  else if env.paused then
    ([⟨ACTION_WARNING, REASON_PAUSED_CLIENT⟩], StepOutcome.continueLoop)
  else if env.blocked then
    ([⟨ACTION_ERROR, REASON_BLOCKED_CLIENT⟩], StepOutcome.closeThenStop 1000)
  else if ¬ env.available then
    ([⟨ACTION_ERROR, REASON_CLIENT_NOT_AVAILABLE⟩],
      StepOutcome.closeThenStop 1000)
  else if env.hasRateLimiter ∧ ¬ env.rateAllowed then
    ([⟨ACTION_ERROR, REASON_RATE_LIMIT_EXCEEDED⟩],
      StepOutcome.closeThenStop 4003)
  else if ¬ env.decodeOk then ([], StepOutcome.continueLoop)
  else if ¬ env.encodeOk then ([], StepOutcome.continueLoop)
  else if ¬ env.storeOk then ([], StepOutcome.closeThenStop 1011)
  else if ¬ env.alreadyRegistered ∧ ¬ env.hasRefImage then
    ([], StepOutcome.stopSession)
  else ([], StepOutcome.enqueued env.publishOk)

/-- The rate limiter denied this session's current frame: all earlier
admission checks passed (so the limiter was actually consulted) and it
returned deny. -/
def rateDenied (env : GatewayEnv) : Prop :=
  env.user_name ≠ "" ∧ env.paused = false ∧ env.blocked = false
    ∧ env.available = true ∧ env.hasRateLimiter = true
    ∧ env.rateAllowed = false

/-- C8: the per-frame admission checks fire in the order paused, blocked,
availability, rate limit (each outcome characterised by exactly the
conditions reflecting that priority), and the gateway closes the socket
with code 4003 iff the rate limiter denied the session's current frame,
in which case it first sends `{action: ERROR(4), reason:
RATE_LIMIT_EXCEEDED(12)}`. -/
theorem C8_gateway_admission_order_and_4003 (env : GatewayEnv) :
    (handleFrame env
        = ([⟨ACTION_WARNING, REASON_PAUSED_CLIENT⟩], StepOutcome.continueLoop)
      ↔ env.user_name ≠ "" ∧ env.paused = true)
    ∧ (handleFrame env
        = ([⟨ACTION_ERROR, REASON_BLOCKED_CLIENT⟩],
            StepOutcome.closeThenStop 1000)
      ↔ env.user_name ≠ "" ∧ env.paused = false ∧ env.blocked = true)
    ∧ (handleFrame env
        = ([⟨ACTION_ERROR, REASON_CLIENT_NOT_AVAILABLE⟩],
            StepOutcome.closeThenStop 1000)
      ↔ env.user_name ≠ "" ∧ env.paused = false ∧ env.blocked = false
          ∧ env.available = false)
    ∧ ((handleFrame env).2 = StepOutcome.closeThenStop 4003 ↔ rateDenied env)
    ∧ (handleFrame env
        = ([⟨ACTION_ERROR, REASON_RATE_LIMIT_EXCEEDED⟩],
            StepOutcome.closeThenStop 4003)
      ↔ rateDenied env) := by
  simp only [handleFrame, rateDenied]
  split_ifs with h1 h2 h3 h4 h5 h6 h7 h8 h9 <;>
    simp_all [ACTION_WARNING, ACTION_ERROR, REASON_PAUSED_CLIENT,
      REASON_BLOCKED_CLIENT, REASON_CLIENT_NOT_AVAILABLE,
      REASON_RATE_LIMIT_EXCEEDED, SentMsg.mk.injEq]

/-! ## Reference-embedding lookup
(`FaceDetectionRecognition._get_reference_embedding`) -/

/-- Pixel data, abstract. -/
abbrev Image := List Int

/-- An embedding vector (`np.ndarray`); `[]` models a zero-size array. -/
abbrev Vec := List Int

/-- Stored embedding record.  The metadata `source_mtime` is optional
because `metadata.get("source_mtime")` may be absent. -/
structure EmbeddingRecord where
  vector : Vec
  source_mtime : Option Int
  model_signature : String
deriving DecidableEq

/-- Object-store key of an embedding: (namespace, model signature,
client). -/
abbrev EmbKey := String × String × String

/-- The embedding section of the object store. -/
abbrev EmbStore := List (EmbKey × EmbeddingRecord)

def storeGet : EmbStore → EmbKey → Option EmbeddingRecord
  | [], _ => none
  | e :: es, k => if e.1 = k then some e.2 else storeGet es k

def storeSet : EmbStore → EmbKey → EmbeddingRecord → EmbStore
  | [], k, v => [(k, v)]
  | e :: es, k, v => if e.1 = k then (k, v) :: es else e :: storeSet es k v

/-- Modelled from the spec: `StorageClient.load_embedding` is called by
`FaceDetectionRecognition._load_embedding_from_storage` but is not defined
anywhere in the source tree; per the spec the object store keeps a record
at `embeddings/<namespace>/<model_sig>/<client>.bin` carrying
`{vector, metadata.source_mtime, metadata.model_signature}`. -/
def load_embedding (store : EmbStore) (ns sig client : String) :
    Option EmbeddingRecord :=
  storeGet store (ns, sig, client)

/-- Modelled from the spec: `StorageClient.save_embedding` (also absent
from the source tree) writes the record for (namespace, signature,
client), stamping the metadata with the source mtime and the model
signature. -/
def save_embedding (store : EmbStore) (ns sig client : String) (vec : Vec)
    (source_mtime : Int) : EmbStore :=
  storeSet store (ns, sig, client)
    { vector := vec, source_mtime := some source_mtime,
      model_signature := sig }

/-- `FaceDetectionRecognition._load_embedding_from_storage`: `none` when
there is no storage client or no record, or when the stored
`source_mtime` differs from the current one. -/
def load_embedding_from_storage (hasStorage : Bool) (store : EmbStore)
    (ns sig client : String) (source_mtime : Int) : Option Vec :=
  if ¬ hasStorage then none
  else
    match load_embedding store ns sig client with
    | none => none
    | some record =>
      if record.source_mtime = some source_mtime then some record.vector
      else none

/-- The two in-process maps `_ref_embeddings` and `_ref_versions`. -/
structure RefCacheState where
  ref_embeddings : List (String × Vec)
  ref_versions : List (String × Int)
deriving DecidableEq

/-- External effects of `_get_reference_embedding`: the enrolment image's
current mtime (`none` when `os.path.getmtime` raises
`FileNotFoundError`), the loaded enrolment image, the face detector, the
centered 320×320 crop, the embedding computation (`none` when
`get_embedding` raises), and whether the storage write-through succeeds
(failure is logged, not fatal). -/
structure RefEnv where
  hasStorage : Bool
  source_mtime : Option Int
  client_image : Option Image
  detect_face : Image → Option Image
  crop_center : Image → Image
  embed : Image → Option Vec
  persist_ok : Bool

/-- Recompute path of `_get_reference_embedding` (after both cache tiers
miss): load the enrolment image, detect-and-crop (falling back to the
centered crop on detection failure), compute the embedding, update both
in-process maps, and persist to the object store. -/
def recompute_reference (env : RefEnv) (ns sig : String)
    (st : RefCacheState) (store : EmbStore) (client : String)
    (current : Int) : Option Vec × RefCacheState × EmbStore :=
  match env.client_image with
  | none => (none, st, store)
  | some img =>
    if img = [] then (none, st, store)
    else
      let ref_face :=
        match env.detect_face img with
        | some f => f
        | none => env.crop_center img
      match env.embed ref_face with
      | none => (none, st, store)
      | some emb =>
        let st1 : RefCacheState :=
          { ref_embeddings := alset st.ref_embeddings client emb,
            ref_versions := alset st.ref_versions client current }
        let store1 :=
          if env.persist_ok then save_embedding store ns sig client emb current
          else store
        (some emb, st1, store1)

/-- `FaceDetectionRecognition._get_reference_embedding`: missing source →
`none`; else in-process hit when the cached mtime is at least the current
one and the embedding is cached; else object-store hit when the stored
mtime equals the current one and the vector is non-empty (the hit is
mirrored into the in-process maps); else recompute with write-through. -/
def get_reference_embedding (env : RefEnv) (ns sig : String)
    (st : RefCacheState) (store : EmbStore) (client : String) :
    Option Vec × RefCacheState × EmbStore :=
  match env.source_mtime with
  | none => (none, st, store)
  | some current =>
    let tier1 : Option Vec :=
      match alget st.ref_versions client, alget st.ref_embeddings client with
      | some v, some emb => if current ≤ v then some emb else none
      | _, _ => none
    match tier1 with
    | some emb => (some emb, st, store)
    | none =>
      match load_embedding_from_storage env.hasStorage store ns sig client
          current with
      | some vec =>
        if vec ≠ [] then
          (some vec,
            { ref_embeddings := alset st.ref_embeddings client vec,
              ref_versions := alset st.ref_versions client current },
            store)
        else recompute_reference env ns sig st store client current
      | none => recompute_reference env ns sig st store client current

/-- Result of `FaceDetectionRecognition.__check_client` (the fields the
claims speak about): a missing reference embedding makes the identity
check fail (`check_client = false`) instead of raising. -/
structure CheckClientResult where
  check_client : Bool
  check_spoof : Bool
deriving DecidableEq

/-- `FaceDetectionRecognition.__check_client`: identity verified only
when a reference embedding is available and the recogniser verifies the
face against it; the spoof check runs either way. -/
def check_client_fn (refEmb : Option Vec) (verified : Vec → Bool)
    (is_spoof : Bool) : CheckClientResult :=
  match refEmb with
  | none => { check_client := false, check_spoof := is_spoof }
  | some emb => { check_client := verified emb, check_spoof := is_spoof }

theorem storeGet_storeSet_self (s : EmbStore) (k : EmbKey)
    (v : EmbeddingRecord) : storeGet (storeSet s k v) k = some v := by
  induction s with
  | nil => simp [storeGet, storeSet]
  | cons e es ih =>
    by_cases h : e.1 = k
    · simp [storeGet, storeSet, h]
    · simp [storeGet, storeSet, h, ih]

theorem storeGet_mem (s : EmbStore) (k : EmbKey) (r : EmbeddingRecord)
    (h : storeGet s k = some r) : ∃ e ∈ s, e.2 = r := by
  induction s with
  | nil => simp [storeGet] at h
  | cons e es ih =>
    by_cases hk : e.1 = k
    · simp [storeGet, hk] at h
      exact ⟨e, by simp, h⟩
    · simp [storeGet, hk] at h
      obtain ⟨x, hx, hxr⟩ := ih h
      exact ⟨x, by simp [hx], hxr⟩

/-- Tier-1 validity in the claim's terms: the in-process entry exists and
its cached mtime is at least the current source mtime. -/
def tier1Hit (st : RefCacheState) (client : String) (current : Int) : Prop :=
  ∃ v emb, alget st.ref_versions client = some v ∧ current ≤ v
    ∧ alget st.ref_embeddings client = some emb

/-- Tier-2 validity in the claim's terms: the object-store record exists
and its stored `source_mtime` equals the current source mtime. -/
def tier2Hit (store : EmbStore) (ns sig client : String)
    (current : Int) : Prop :=
  ∃ r, load_embedding store ns sig client = some r
    ∧ r.source_mtime = some current

/-- The recompute result was written through: returned, mirrored into
both in-process maps, and (when the storage write succeeds) persisted
with the current mtime and signature. -/
def writtenThrough (r : Option Vec × RefCacheState × EmbStore)
    (ns sig client : String) (emb : Vec) (current : Int)
    (persist : Bool) : Prop :=
  r.1 = some emb
  ∧ alget r.2.1.ref_embeddings client = some emb
  ∧ alget r.2.1.ref_versions client = some current
  ∧ (persist = true →
      load_embedding r.2.2 ns sig client
        = some { vector := emb, source_mtime := some current,
                 model_signature := sig })

/-- C6: `GetReference` follows the three-tier lookup order: the
in-process entry is used when its cached mtime is ≥ the current source
mtime; otherwise the object-store record is used when its stored mtime
equals the current source mtime (and is mirrored in-process); otherwise
the embedding is recomputed from the source image (detect-and-crop,
falling back to a centered crop) and written through to both caches.
The hypothesis `hne` reflects that stored records always carry the
non-empty vector produced by the embedder. -/
theorem C6_reference_lookup_tiers (env : RefEnv) (ns sig client : String)
    (st : RefCacheState) (store : EmbStore)
    (hstore : env.hasStorage = true)
    (hne : ∀ kr ∈ store, kr.2.vector ≠ []) :
    (env.source_mtime = none →
      get_reference_embedding env ns sig st store client = (none, st, store))
    ∧ ∀ current, env.source_mtime = some current →
        ((∀ v emb, alget st.ref_versions client = some v → current ≤ v →
            alget st.ref_embeddings client = some emb →
            get_reference_embedding env ns sig st store client
              = (some emb, st, store))
        ∧ (¬ tier1Hit st client current →
            ∀ r, load_embedding store ns sig client = some r →
              r.source_mtime = some current →
              get_reference_embedding env ns sig st store client
                = (some r.vector,
                    { ref_embeddings := alset st.ref_embeddings client r.vector,
                      ref_versions := alset st.ref_versions client current },
                    store))
        ∧ (¬ tier1Hit st client current →
            ¬ tier2Hit store ns sig client current →
            (get_reference_embedding env ns sig st store client
                = recompute_reference env ns sig st store client current
            ∧ (∀ img f emb, env.client_image = some img → img ≠ [] →
                env.detect_face img = some f → env.embed f = some emb →
                writtenThrough
                  (get_reference_embedding env ns sig st store client)
                  ns sig client emb current env.persist_ok)
            ∧ (∀ img emb, env.client_image = some img → img ≠ [] →
                env.detect_face img = none →
                env.embed (env.crop_center img) = some emb →
                writtenThrough
                  (get_reference_embedding env ns sig st store client)
                  ns sig client emb current env.persist_ok)))) := by
  constructor
  · intro hm
    simp [get_reference_embedding, hm]
  · intro current hm
    refine ⟨?_, ?_, ?_⟩
    · intro v emb hv hle hemb
      simp [get_reference_embedding, hm, hv, hemb, hle]
    · intro hN1 r hr hrm
      have hvec : r.vector ≠ [] := by
        obtain ⟨e, hmem, hre⟩ := storeGet_mem store (ns, sig, client) r hr
        exact hre ▸ hne e hmem
      have hload : load_embedding_from_storage env.hasStorage store ns sig
          client current = some r.vector := by
        simp [load_embedding_from_storage, hstore, hr, hrm]
      cases hv : alget st.ref_versions client with
      | none => simp [get_reference_embedding, hm, hv, hload, hvec]
      | some v =>
        cases he : alget st.ref_embeddings client with
        | none => simp [get_reference_embedding, hm, hv, he, hload, hvec]
        | some emb =>
          have hnle : ¬ current ≤ v := fun hle => hN1 ⟨v, emb, hv, hle, he⟩
          simp [get_reference_embedding, hm, hv, he, hnle, hload, hvec]
    · intro hN1 hN2
      have hload : load_embedding_from_storage env.hasStorage store ns sig
          client current = none := by
        simp only [load_embedding_from_storage, hstore]
        cases hr : load_embedding store ns sig client with
        | none => simp
        | some r =>
          have hrm : ¬ r.source_mtime = some current :=
            fun h => hN2 ⟨r, hr, h⟩
          simp [hrm]
      have hmain : get_reference_embedding env ns sig st store client
          = recompute_reference env ns sig st store client current := by
        cases hv : alget st.ref_versions client with
        | none => simp [get_reference_embedding, hm, hv, hload]
        | some v =>
          cases he : alget st.ref_embeddings client with
          | none => simp [get_reference_embedding, hm, hv, he, hload]
          | some emb =>
            have hnle : ¬ current ≤ v := fun hle => hN1 ⟨v, emb, hv, hle, he⟩
            simp [get_reference_embedding, hm, hv, he, hnle, hload]
      refine ⟨hmain, ?_, ?_⟩
      · intro img f emb himg himgne hdet hemb
        rw [writtenThrough, hmain]
        rcases hp : env.persist_ok <;>
          simp [recompute_reference, himg, himgne, hdet, hemb, hp,
            alget_alset_self, load_embedding, save_embedding,
            storeGet_storeSet_self]
      · intro img emb himg himgne hdet hemb
        rw [writtenThrough, hmain]
        rcases hp : env.persist_ok <;>
          simp [recompute_reference, himg, himgne, hdet, hemb, hp,
            alget_alset_self, load_embedding, save_embedding,
            storeGet_storeSet_self]

/-- Concrete environment for the C6 witness: source image present with
mtime 5; detector fails so the centered crop would be used; embedder
yields `[9]`. -/
def envTier2 : RefEnv :=
  { hasStorage := true, source_mtime := some 5, client_image := some [1],
    detect_face := fun _ => none, crop_center := fun i => i,
    embed := fun _ => some [9], persist_ok := true }

/-- Concrete object store for the C6 witness: one valid record for
`obama` with matching mtime. -/
def storeTier2 : EmbStore :=
  [(("ns", "sig", "obama"),
    { vector := [7], source_mtime := some 5, model_signature := "sig" })]

/-- C6 witness: with an empty in-process cache and a matching object-store
record, the lookup returns the stored vector and mirrors it into both
in-process maps without touching the store. -/
theorem C6_reference_lookup_tiers_witness :
    get_reference_embedding envTier2 "ns" "sig"
        { ref_embeddings := [], ref_versions := [] } storeTier2 "obama"
      = (some [7],
          { ref_embeddings := [("obama", [7])], ref_versions := [("obama", 5)] },
          storeTier2) := by
  have h := (C6_reference_lookup_tiers envTier2 "ns" "sig" "obama"
      { ref_embeddings := [], ref_versions := [] } storeTier2 rfl
      (by decide)).2 5 rfl
  have h2 := h.2.1
    (by
      rintro ⟨v, e, hv, -, -⟩
      simp [alget] at hv)
    { vector := [7], source_mtime := some 5, model_signature := "sig" }
    (by decide) rfl
  simpa [alset] using h2

/-- C7: when the client's enrolment image file does not exist
(`os.path.getmtime` raises `FileNotFoundError`, modelled as
`source_mtime = none`), `GetReference` returns `none` without raising and
without touching either cache, and `__check_client` then reports
`check_client = false` (identity failure) while still running the spoof
check — no server error is surfaced. -/
theorem C7_missing_reference_check_client (env : RefEnv)
    (ns sig client : String) (st : RefCacheState) (store : EmbStore)
    (verified : Vec → Bool) (spoof : Bool)
    (h : env.source_mtime = none) :
    (get_reference_embedding env ns sig st store client).1 = none
    ∧ (get_reference_embedding env ns sig st store client).2 = (st, store)
    ∧ (check_client_fn (get_reference_embedding env ns sig st store client).1
        verified spoof).check_client = false
    ∧ (check_client_fn (get_reference_embedding env ns sig st store client).1
        verified spoof).check_spoof = spoof := by
  simp [get_reference_embedding, h, check_client_fn]

/-- Environment for the C7 witness: the enrolment image file is missing. -/
def envMissing : RefEnv :=
  { hasStorage := true, source_mtime := none, client_image := none,
    detect_face := fun _ => none, crop_center := fun i => i,
    embed := fun _ => none, persist_ok := true }

/-- C7 witness: a missing enrolment image yields `check_client = false`
even for a recogniser that would verify anything. -/
theorem C7_missing_reference_check_client_witness :
    (get_reference_embedding envMissing "ns" "sig"
        { ref_embeddings := [], ref_versions := [] } [] "obama").1 = none
    ∧ (check_client_fn
        (get_reference_embedding envMissing "ns" "sig"
          { ref_embeddings := [], ref_versions := [] } [] "obama").1
        (fun _ => true) false).check_client = false := by
  have h := C7_missing_reference_check_client envMissing "ns" "sig" "obama"
    { ref_embeddings := [], ref_versions := [] } [] (fun _ => true) false rfl
  exact ⟨h.1, h.2.2.1⟩

/-! ## Decision-fuser frame cleanup
(`ActionDecisionManager_Process._cleanup_frame`) -/

/-- Envelope metadata of a consumed verdict payload (the fields
`_cleanup_frame` reads). -/
structure ResultPayload where
  client_name : String
  image_object_key : Option String
deriving DecidableEq

/-- The frame section of the object store, as a set of keys. -/
abbrev FrameStore := List String

/-- `StorageClient.delete_object`. -/
def delete_object (s : FrameStore) (k : String) : FrameStore :=
  s.filter (fun x => x != k)

/-- `StorageClient.fetch_object`, `none` when the key is gone. -/
def fetch_object (s : FrameStore) (k : String) : Option String :=
  if k ∈ s then some k else none

/-- `ActionDecisionManager_Process._cleanup_frame`: attempt deletion of
the payload's `image_object_key` when present.  Returns the store after
the attempt and whether a deletion was attempted. -/
def cleanup_frame (p : ResultPayload) (s : FrameStore) : FrameStore × Bool :=
  match p.image_object_key with
  | none => (s, false)
  | some k => (delete_object s k, true)

/-- The face consumer of `setup_consumers`: the try-body's publishes
(`failAfter = some i` models an exception raised after `i` publishes,
`none` models success), then — in the `finally` block — the frame
cleanup.  Returns (publishes, store after, cleanup attempted). -/
def handle_face_result (v : FaceVerdict) (p : ResultPayload)
    (finish : String) (failAfter : Option Nat) (s : FrameStore) :
    List FuserPublish × FrameStore × Bool :=
  let body := processFaceResult v finish
  let pubs :=
    match failAfter with
    | none => body
    | some i => body.take i
  let c := cleanup_frame p s
  (pubs, c.1, c.2)

/-- The phone consumer of `setup_consumers`, same shape. -/
def handle_phone_result (w : PhoneVerdict) (p : ResultPayload)
    (finish : String) (failAfter : Option Nat) (s : FrameStore) :
    List FuserPublish × FrameStore × Bool :=
  let body := processPhoneResult w finish
  let pubs :=
    match failAfter with
    | none => body
    | some i => body.take i
  let c := cleanup_frame p s
  (pubs, c.1, c.2)

/-- C10: whether the handler succeeds or raises, each fuser consumer
attempts to delete the verdict's `image_object_key` in its `finally`
block, and afterwards the frame bytes are gone: a fetch of the same key —
as the other branch's verdict for the same frame would perform — returns
nothing. -/
theorem C10_fuser_cleanup_finally (v : FaceVerdict) (w : PhoneVerdict)
    (p : ResultPayload) (finish : String) (failAfter : Option Nat)
    (s : FrameStore) (k : String) (hk : p.image_object_key = some k) :
    ((handle_face_result v p finish failAfter s).2.2 = true
      ∧ (handle_phone_result w p finish failAfter s).2.2 = true)
    ∧ (k ∉ (handle_face_result v p finish failAfter s).2.1
      ∧ k ∉ (handle_phone_result w p finish failAfter s).2.1)
    ∧ fetch_object (handle_face_result v p finish failAfter s).2.1 k = none
    ∧ fetch_object (handle_phone_result w p finish failAfter s).2.1 k
        = none := by
  have hnm : k ∉ delete_object s k := by
    simp [delete_object, List.mem_filter]
  simp [handle_face_result, handle_phone_result, cleanup_frame, hk,
    fetch_object, hnm]

/-- C10 witness: a concrete payload with a stored frame; after either
handler runs (here: the face handler succeeding and the phone handler
raising immediately), the key is deleted and a fetch misses. -/
theorem C10_fuser_cleanup_finally_witness :
    (handle_face_result
        { client_name := "obama", send_time := "t", face_bbox := none,
          check_spoof := none, check_client := none }
        { client_name := "obama",
          image_object_key := some "frames/obama/1.jpg" }
        "t2" none ["frames/obama/1.jpg"]).2.2 = true
    ∧ fetch_object
        (handle_phone_result
          { client_name := "obama", send_time := "t", phone_bbox := none }
          { client_name := "obama",
            image_object_key := some "frames/obama/1.jpg" }
          "t2" (some 0) ["frames/obama/1.jpg"]).2.1
        "frames/obama/1.jpg" = none := by
  have h := C10_fuser_cleanup_finally
    { client_name := "obama", send_time := "t", face_bbox := none,
      check_spoof := none, check_client := none }
    { client_name := "obama", send_time := "t", phone_bbox := none }
    { client_name := "obama", image_object_key := some "frames/obama/1.jpg" }
    "t2" none ["frames/obama/1.jpg"] "frames/obama/1.jpg" rfl
  have h2 := C10_fuser_cleanup_finally
    { client_name := "obama", send_time := "t", face_bbox := none,
      check_spoof := none, check_client := none }
    { client_name := "obama", send_time := "t", phone_bbox := none }
    { client_name := "obama", image_object_key := some "frames/obama/1.jpg" }
    "t2" (some 0) ["frames/obama/1.jpg"] "frames/obama/1.jpg" rfl
  exact ⟨h.1.1, h2.2.2.2⟩

end FaceServer
